import Mathlib

/-!
Verification of the clinvar_xml2vcf converter.

The Rust sources (src/lib.rs and src/bin/clinvar_xml2vcf.rs) are embedded
shallowly below: the serde data model becomes Lean structures, the pure
projection functions (`extract_location`, `extract_conditions`,
`output_record`) become Lean functions, and the streaming record extractor
(`read_record`) becomes a recursive function over a list of structural XML
events.  Rust's Unicode-aware `to_uppercase` / `to_lowercase` / `trim` are
modelled by Lean's ASCII `Char.toUpper` / `Char.toLower` / `String.trim`;
all validated data (chromosome labels, ACGT alleles) is ASCII, where the two
agree.  The Rust `i32` / `u64` fields are modelled as `Int` / `Nat`; none of
the embedded code performs arithmetic on them, so overflow cannot arise.
-/

namespace ClinVar

/-! ## Data model (src/lib.rs, serde structs) -/

/-- Rust struct `SequenceLocation`: one genomic placement for one assembly. -/
structure SequenceLocation where
  assembly : String
  chr : String
  pos : Option Nat
  reference : Option String
  alternate : Option String
  deriving DecidableEq, Repr

/-- Rust struct `Location`: a list of per-assembly sequence locations. -/
structure Location where
  sequence_location : List SequenceLocation
  deriving DecidableEq, Repr

/-- Rust struct `SimpleAllele`: atomic variant with ids and optional location. -/
structure SimpleAllele where
  allele_id : Nat
  variation_id : Nat
  location : Option Location
  deriving DecidableEq, Repr

/-- Rust struct `Haplotype`. -/
structure Haplotype where
  variation_id : Nat
  simple_allele : List SimpleAllele
  deriving DecidableEq, Repr

/-- Rust struct `Genotype`. -/
structure Genotype where
  simple_allele : Option (List SimpleAllele)
  haplotype : Option (List Haplotype)
  deriving DecidableEq, Repr

/-- Rust struct `ClassifiedCondition`: a condition reference with a source
database name and optional external id. -/
structure ClassifiedCondition where
  db : Option String
  id : Option String
  text : String
  deriving DecidableEq, Repr

/-- Rust struct `ClassifiedConditionList`. -/
structure ClassifiedConditionList where
  classified_condition : List ClassifiedCondition
  deriving DecidableEq, Repr

/-- Rust struct `Description`: classification free text plus submission count. -/
structure Description where
  submission_count : Int
  text : String
  deriving DecidableEq, Repr

/-- Rust struct `GermlineClassification`. -/
structure GermlineClassification where
  description : Description
  deriving DecidableEq, Repr

/-- Rust struct `SomaticClinicalImpact`. -/
structure SomaticClinicalImpact where
  description : Description
  deriving DecidableEq, Repr

/-- Rust struct `OncogenicityClassification`. -/
structure OncogenicityClassification where
  description : Description
  deriving DecidableEq, Repr

/-- Rust struct `RCVClassifications`: at most one block of each of the three
classification kinds. -/
structure RCVClassifications where
  germline_classification : Option GermlineClassification
  somatic_clinical_impact : Option SomaticClinicalImpact
  oncogenicity_classification : Option OncogenicityClassification
  deriving DecidableEq, Repr

/-- Rust struct `RCVAccession`: one clinical-submission grouping. -/
structure RCVAccession where
  title : Option String
  accession : String
  version : Int
  classified_condition_list : ClassifiedConditionList
  rcv_classifications : RCVClassifications
  deriving DecidableEq, Repr

/-- Rust struct `RCVList`. -/
structure RCVList where
  rcv_accession : List RCVAccession
  deriving DecidableEq, Repr

/-- Rust struct `ClassifiedRecord`. -/
structure ClassifiedRecord where
  simple_allele : Option SimpleAllele
  haplotype : Option Haplotype
  genotype : Option Genotype
  rcv_list : RCVList
  deriving DecidableEq, Repr

/-- Rust struct `IncludedRecord`. -/
structure IncludedRecord where
  simple_allele : Option SimpleAllele
  haplotype : Option Haplotype
  deriving DecidableEq, Repr

/-- Rust struct `VariationArchive`: one top-level archive entry. -/
structure VariationArchive where
  variation_id : Nat
  accession : String
  classified_record : Option ClassifiedRecord
  included_record : Option IncludedRecord
  deriving DecidableEq, Repr

/-! ## Validation predicates and location extraction (src/lib.rs) -/

/-- Embedding of `REGEX_CHROMOSOME`, the anchored regular expression
`([1-9]|1[0-9]|2[0-2]|X|Y|MT)` matched against the whole string: a single
character in 1..9 or X or Y, or two characters forming 10..19, 20..22 or MT. -/
def regexChromosomeMatch (s : String) : Bool :=
  match s.data with
  | [c] => ('1' ≤ c && c ≤ '9') || c == 'X' || c == 'Y'
  | [c₁, c₂] =>
      (c₁ == '1' && '0' ≤ c₂ && c₂ ≤ '9') ||
      (c₁ == '2' && '0' ≤ c₂ && c₂ ≤ '2') ||
      (c₁ == 'M' && c₂ == 'T')
  | _ => false

/-- Embedding of `REGEX_ALLELE`, the anchored regular expression `[ACGT]+`
matched against the whole string: one or more of A, C, G, T. -/
def regexAlleleMatch (s : String) : Bool :=
  !s.data.isEmpty && s.data.all fun c => c == 'A' || c == 'C' || c == 'G' || c == 'T'

/-- Model of Rust `str::to_uppercase` (ASCII fragment), on the character
list so that it reduces by structural recursion. -/
def rustToUppercase (s : String) : String :=
  ⟨s.data.map Char.toUpper⟩

/-- Model of Rust `str::to_lowercase` (ASCII fragment). -/
def rustToLowercase (s : String) : String :=
  ⟨s.data.map Char.toLower⟩

/-- Splitting of a character list at every separator character, keeping
empty segments, as Rust `str::split` with a character-class pattern does. -/
def splitCharList (p : Char → Bool) : List Char → List (List Char)
  | [] => [[]]
  | c :: cs =>
      if p c then [] :: splitCharList p cs
      else
        match splitCharList p cs with
        | [] => [[c]]
        | s :: ss => (c :: s) :: ss

/-- Model of Rust `str::split` with a character-class pattern. -/
def rustSplit (s : String) (p : Char → Bool) : List String :=
  (splitCharList p s.data).map String.mk

/-- Model of Rust `str::trim` (ASCII-whitespace fragment): drop whitespace
from both ends. -/
def rustTrim (s : String) : String :=
  ⟨((s.data.dropWhile Char.isWhitespace).reverse.dropWhile Char.isWhitespace).reverse⟩

/-- Model of Rust `str::replace(" ", "_")`: with a single-character pattern
and replacement, replacement is a character map. -/
def rustReplaceSpace (s : String) : String :=
  ⟨s.data.map fun c => if c == ' ' then '_' else c⟩

/-- The location-selection step of `extract_location` (src/lib.rs lines
192-195): the first sequence location whose assembly label equals the
target. -/
def matchingLocation (allele : SimpleAllele) (assembly : String) :
    Option SequenceLocation :=
  allele.location.bind fun l =>
    l.sequence_location.find? fun x => x.assembly == assembly

/-- The sequence locations an allele carries (empty when it has no Location
element). -/
def locationsOf (allele : SimpleAllele) : List SequenceLocation :=
  match allele.location with
  | some l => l.sequence_location
  | none => []

/-- Embedding of `extract_location` (src/lib.rs lines 188-234).  Returns
`(CHROM, POS, REF, ALT)` with REF/ALT in their original casing, or `none`
when no location matches the assembly, coordinates are incomplete, or a
validation check fails.  The diagnostic `warn!` side effects are not part of
the returned value and are modelled in `output_record`'s log only where the
claims mention them. -/
def extract_location (allele : SimpleAllele) (assembly : String) :
    Option (String × Nat × String × String) :=
  (matchingLocation allele assembly).bind fun x =>
    match x.pos, x.reference, x.alternate with
    | some p, some r, some a =>
        let reference := rustToUppercase r
        let alternate := rustToUppercase a
        if !regexChromosomeMatch x.chr then none
        else if !regexAlleleMatch reference then none
        else if !regexAlleleMatch alternate then none
        else if reference == alternate then none
        else some (x.chr, p, r, a)
    | _, _, _ => none

/-! ## Condition synthesis and row projection (src/bin/clinvar_xml2vcf.rs) -/

/-- Rust constant `DB_MEDGEN`. -/
def DB_MEDGEN : String := "MedGen"

/-- The per-accession MedGen id collection step of `extract_conditions`
(src/bin/clinvar_xml2vcf.rs lines 370-381): the ids of the classified
conditions whose db is exactly `MedGen`. -/
def medgenIds (rcv : RCVAccession) : List String :=
  rcv.classified_condition_list.classified_condition.filterMap fun x =>
    if x.db == some DB_MEDGEN then x.id else none

/-- The per-accession body of the `filter_map` in `extract_conditions`
(src/bin/clinvar_xml2vcf.rs lines 369-409), given a name here: when at least
one MedGen condition id exists, map the optional germline classification to
`MedGen:<ids joined by slash>:<fragments joined by slash>:<count>`, where
the fragments are the germline description text split on slash and
semicolon, trimmed, spaces replaced by underscores, lower-cased. -/
def accessionContribution (rcv : RCVAccession) : Option String :=
  if (medgenIds rcv).length != 0 then
    ((rcv.rcv_classifications.germline_classification.map fun x =>
        (String.intercalate "/"
          ((rustSplit x.description.text fun c => c == '/' || c == ';').map
            fun y => rustToLowercase (rustReplaceSpace (rustTrim y))),
         x.description.submission_count)).map fun p =>
      DB_MEDGEN ++ ":" ++ String.intercalate "/" (medgenIds rcv) ++ ":" ++
        p.1 ++ ":" ++ toString p.2)
  else none

/-- Embedding of `extract_conditions` (src/bin/clinvar_xml2vcf.rs lines
364-413): the per-accession contributions joined with a pipe. -/
def extract_conditions (record : ClassifiedRecord) : String :=
  String.intercalate "|"
    (record.rcv_list.rcv_accession.filterMap accessionContribution)

/-- Derived output row: the fields written by `output_record`'s `writeln!`
(src/bin/clinvar_xml2vcf.rs lines 333-343). -/
structure OutputRow where
  chrom : String
  pos : Nat
  variation_id : Nat
  reference : String
  alternate : String
  allele_id : Nat
  conditions : String
  deriving DecidableEq, Repr

/-- Rendering of one output row as the tab-separated VCF body line written by
`writeln!` in `output_record`. -/
def renderRow (r : OutputRow) : String :=
  r.chrom ++ "\t" ++ toString r.pos ++ "\t" ++ toString r.variation_id ++ "\t" ++
    r.reference ++ "\t" ++ r.alternate ++ "\t.\t.\tALLELEID=" ++
    toString r.allele_id ++ ";CONDITIONS=" ++ r.conditions

/-- The three `warn!` diagnostics emitted by `output_record` itself, each
carrying the variation id it reports (src/bin/clinvar_xml2vcf.rs lines
326-330, 346-349 and 352-355). -/
inductive ProjectionWarning where
  | noMedGenCondition (variation_id : Nat)
  | simpleAlleleNotFound (variation_id : Nat)
  | classifiedRecordNotFound (variation_id : Nat)
  deriving DecidableEq, Repr

/-- The variation id reported by a projection warning. -/
def ProjectionWarning.reportedId : ProjectionWarning → Nat
  | .noMedGenCondition v => v
  | .simpleAlleleNotFound v => v
  | .classifiedRecordNotFound v => v

/-- Embedding of `output_record` (src/bin/clinvar_xml2vcf.rs lines 315-360):
zero or one output row, together with the diagnostics `output_record` logs.
The writer side effect becomes the returned `Option OutputRow`. -/
def output_record (variant : VariationArchive) (assembly : String) :
    Option OutputRow × List ProjectionWarning :=
  match variant.classified_record with
  | some record =>
      match record.simple_allele with
      | some allele =>
          match extract_location allele assembly with
          | some loc =>
              let conditions := extract_conditions record
              if conditions.isEmpty then
                (none, [.noMedGenCondition variant.variation_id])
              else
                (some { chrom := loc.1, pos := loc.2.1,
                        variation_id := allele.variation_id,
                        reference := rustToUppercase loc.2.2.1,
                        alternate := rustToUppercase loc.2.2.2,
                        allele_id := allele.allele_id,
                        conditions := conditions }, [])
          | none => (none, [])
      | none => (none, [.simpleAlleleNotFound variant.variation_id])
  | none => (none, [.classifiedRecordNotFound variant.variation_id])

/-! ## Streaming record extraction (src/bin/clinvar_xml2vcf.rs, `read_record`)

The quick-xml event stream is modelled structurally: an event is an element
start (with its tag name), an element end, a text node, an end-of-stream
marker, or any other event kind.  A finite event list models the reader; an
exhausted list behaves like the reader's `Event::Eof`. -/

/-- Structural XML event, the shallow model of `quick_xml::events::Event`. -/
inductive XmlEvent where
  | startTag (name : String)
  | endTag (name : String)
  | text (s : String)
  | eofMark
  | other
  deriving DecidableEq, Repr

/-- The error message of the `quick_xml::Error::UnexpectedEof` raised by
`read_record` (src/bin/clinvar_xml2vcf.rs lines 240-244). -/
def unexpectedEofMsg : String := "Unexpected end of file (EOF) encountered."

/-- The loop of `read_record` (src/bin/clinvar_xml2vcf.rs lines 224-247):
`depth` is the same-name nesting counter, `acc` the output buffer so far.
Each event read is appended to the buffer, then: a nested start of the
target name increments the counter; a matching end at counter zero returns
the buffer (and here also the unconsumed remainder of the stream), otherwise
it decrements the counter; the end-of-stream marker (or an exhausted list)
is the unexpected-EOF error. -/
def readRecordLoop (tagName : String) : List XmlEvent → Nat → List XmlEvent →
    Except String (List XmlEvent × List XmlEvent)
  | [], _, _ => .error unexpectedEofMsg
  | e :: rest, depth, acc =>
      let acc := acc ++ [e]
      match e with
      | .startTag n =>
          if n == tagName then readRecordLoop tagName rest (depth + 1) acc
          else readRecordLoop tagName rest depth acc
      | .endTag n =>
          if n == tagName then
            if depth == 0 then .ok (acc, rest)
            else readRecordLoop tagName rest (depth - 1) acc
          else readRecordLoop tagName rest depth acc
      | .eofMark => .error unexpectedEofMsg
      | _ => readRecordLoop tagName rest depth acc

/-- Embedding of `read_record` (src/bin/clinvar_xml2vcf.rs lines 213-248):
positioned just after the start event of the target element, it first writes
that start event to the buffer, then runs the extraction loop with the
counter at zero. -/
def read_record (tagName : String) (events : List XmlEvent) :
    Except String (List XmlEvent × List XmlEvent) :=
  readRecordLoop tagName events 0 [XmlEvent.startTag tagName]

/-- Decidable well-formedness of an entry body relative to tag name `t` and
current same-name depth `d`: no end-of-stream marker occurs, every end event
of name `t` closes a nested start (the depth is positive there), and the
depth returns exactly to zero at the end of the list. -/
def innerBalanced (t : String) : Nat → List XmlEvent → Bool
  | d, [] => d == 0
  | d, .startTag n :: rest =>
      innerBalanced t (if n == t then d + 1 else d) rest
  | d, .endTag n :: rest =>
      if n == t then decide (d ≠ 0) && innerBalanced t (d - 1) rest
      else innerBalanced t d rest
  | _, .eofMark :: _ => false
  | d, _ :: rest => innerBalanced t d rest

/-- Decidable predicate: every end event of name `t` in the stream closes a
nested same-name start relative to depth `d`, so a matching end at baseline
depth is never reached before the stream runs out. -/
def noBaselineEnd (t : String) : Nat → List XmlEvent → Bool
  | _, [] => true
  | d, .startTag n :: rest =>
      noBaselineEnd t (if n == t then d + 1 else d) rest
  | d, .endTag n :: rest =>
      if n == t then decide (d ≠ 0) && noBaselineEnd t (d - 1) rest
      else noBaselineEnd t d rest
  | d, _ :: rest => noBaselineEnd t d rest

/-! ## Specification-side definitions

These restate condition synthesis following the specification's own words
(section 4.4 of the design document), to be compared with the embedding of
`extract_conditions` above. -/

/-- Fragments of a germline description per the specification: split on
slash and semicolon, trim, replace internal spaces with underscores,
lower-case. -/
def specConditionFragments (text : String) : List String :=
  (rustSplit text fun c => c == '/' || c == ';').map fun f =>
    rustToLowercase (rustReplaceSpace (rustTrim f))

/-- Recognized-vocabulary condition ids of one accession per the
specification: the external ids of condition references tagged against the
MedGen source. -/
def specMedgenIds (rcv : RCVAccession) : List String :=
  rcv.classified_condition_list.classified_condition.filterMap fun c =>
    if c.db == some "MedGen" then c.id else none

/-- Per-accession contribution per the specification: if no recognized-
vocabulary id exists, contribute nothing; otherwise combine the ids with the
germline-classification description fragments and the submission count as
`MedGen:<ids>:<fragments>:<count>`.  Only the germline classification is
consulted. -/
def specAccessionContribution (rcv : RCVAccession) : Option String :=
  if (specMedgenIds rcv).isEmpty then none
  else
    match rcv.rcv_classifications.germline_classification with
    | none => none
    | some g =>
        some ("MedGen:" ++ String.intercalate "/" (specMedgenIds rcv) ++ ":" ++
          String.intercalate "/" (specConditionFragments g.description.text) ++ ":" ++
          toString g.description.submission_count)

/-- Condition synthesis per the specification: join the non-empty
per-accession contributions with a pipe, preserving input order. -/
def specExtractConditions (record : ClassifiedRecord) : String :=
  String.intercalate "|"
    ((record.rcv_list.rcv_accession.filterMap specAccessionContribution).filter
      fun s => !s.isEmpty)

/-- Copy of a classified record with the somatic-clinical-impact and
oncogenicity classifications of every accession erased, used to state that
condition synthesis never consults them. -/
def scrubNonGermline (record : ClassifiedRecord) : ClassifiedRecord :=
  { record with
    rcv_list := ⟨record.rcv_list.rcv_accession.map fun rcv =>
      { rcv with rcv_classifications :=
          { germline_classification := rcv.rcv_classifications.germline_classification,
            somatic_clinical_impact := none,
            oncogenicity_classification := none } }⟩ }

/-! ## Concrete fixtures -/

/-- The GRCh38 placement of the end-to-end example entry. -/
def locC1 : SequenceLocation :=
  { assembly := "GRCh38", chr := "1", pos := some 100,
    reference := some "A", alternate := some "G" }

/-- The simple allele of the end-to-end example entry. -/
def alleleC1 : SimpleAllele :=
  { allele_id := 67, variation_id := 12345, location := some ⟨[locC1]⟩ }

/-- The single submission accession of the end-to-end example entry: one
MedGen condition id M1, germline description with submission count 3. -/
def rcvC1 : RCVAccession :=
  { title := none, accession := "RCV000000001", version := 1,
    classified_condition_list := ⟨[{ db := some "MedGen", id := some "M1",
                                     text := "Condition" }]⟩,
    rcv_classifications :=
      { germline_classification :=
          some ⟨{ submission_count := 3, text := "Pathogenic; Likely pathogenic" }⟩,
        somatic_clinical_impact := none,
        oncogenicity_classification := none } }

/-- The classified record of the end-to-end example entry. -/
def recordC1 : ClassifiedRecord :=
  { simple_allele := some alleleC1, haplotype := none, genotype := none,
    rcv_list := ⟨[rcvC1]⟩ }

/-- The end-to-end example archive entry of the specification's testable
properties. -/
def entryC1 : VariationArchive :=
  { variation_id := 12345, accession := "VCV000012345", classified_record := some recordC1,
    included_record := none }

/-- Accession whose only condition reference is tagged against OMIM, not
MedGen. -/
def rcvNoMedgen : RCVAccession :=
  { title := none, accession := "RCV000000002", version := 1,
    classified_condition_list := ⟨[{ db := some "OMIM", id := some "614279",
                                     text := "Condition" }]⟩,
    rcv_classifications :=
      { germline_classification := some ⟨{ submission_count := 1, text := "Pathogenic" }⟩,
        somatic_clinical_impact := none,
        oncogenicity_classification := none } }

/-- Classified record with valid coordinates but zero MedGen-tagged
conditions. -/
def recordNoMedgen : ClassifiedRecord :=
  { simple_allele := some alleleC1, haplotype := none, genotype := none,
    rcv_list := ⟨[rcvNoMedgen]⟩ }

/-- Archive entry with valid coordinates but zero MedGen-tagged conditions. -/
def entryNoMedgen : VariationArchive :=
  { variation_id := 222, accession := "VCV000000222",
    classified_record := some recordNoMedgen, included_record := none }

/-- Placement whose reference and alternate differ only in casing. -/
def slRefAlt : SequenceLocation :=
  { assembly := "GRCh38", chr := "1", pos := some 100,
    reference := some "a", alternate := some "A" }

/-- Simple allele whose placement has reference and alternate equal after
upper-casing. -/
def alleleRefAlt : SimpleAllele :=
  { allele_id := 5, variation_id := 555, location := some ⟨[slRefAlt]⟩ }

/-- Placement with an out-of-vocabulary chromosome label. -/
def slBadChrom : SequenceLocation :=
  { assembly := "GRCh38", chr := "chr1", pos := some 100,
    reference := some "A", alternate := some "G" }

/-- Simple allele whose placement has an out-of-vocabulary chromosome
label. -/
def alleleBadChrom : SimpleAllele :=
  { allele_id := 6, variation_id := 666, location := some ⟨[slBadChrom]⟩ }

/-- Placement carrying lower-cased alleles. -/
def slLower : SequenceLocation :=
  { assembly := "GRCh38", chr := "2", pos := some 50,
    reference := some "a", alternate := some "g" }

/-- Simple allele carrying lower-cased alleles. -/
def alleleLower : SimpleAllele :=
  { allele_id := 8, variation_id := 888, location := some ⟨[slLower]⟩ }

/-- Classified record carrying lower-cased alleles and one MedGen
condition. -/
def recordLower : ClassifiedRecord :=
  { simple_allele := some alleleLower, haplotype := none, genotype := none,
    rcv_list := ⟨[rcvC1]⟩ }

/-- Archive entry carrying lower-cased alleles and one MedGen condition. -/
def entryLower : VariationArchive :=
  { variation_id := 888, accession := "VCV000000888",
    classified_record := some recordLower, included_record := none }

/-- Archive entry whose own variation id (99) differs from its simple
allele's variation id (12345). -/
def entryDiffer : VariationArchive :=
  { variation_id := 99, accession := "VCV000000099",
    classified_record := some recordC1, included_record := none }

/-- The row projected from `entryDiffer`: the variation id column carries the
allele's id. -/
def rowDiffer : OutputRow :=
  { chrom := "1", pos := 100, variation_id := 12345, reference := "A",
    alternate := "G", allele_id := 67,
    conditions := "MedGen:M1:pathogenic/likely_pathogenic:3" }

/-- Archive entry with no classified record at all. -/
def entryNoRecord : VariationArchive :=
  { variation_id := 99, accession := "VCV000000100",
    classified_record := none, included_record := none }

/-! ## Lemmas about the record extractor -/

lemma readRecordLoop_balanced (t : String) (rest : List XmlEvent) :
    ∀ (inner : List XmlEvent) (d : Nat) (acc : List XmlEvent),
      innerBalanced t d inner = true →
      readRecordLoop t (inner ++ XmlEvent.endTag t :: rest) d acc =
        .ok (acc ++ (inner ++ [XmlEvent.endTag t]), rest) := by
  intro inner
  induction inner with
  | nil =>
      intro d acc h
      simp only [innerBalanced, beq_iff_eq] at h
      subst h
      simp [readRecordLoop]
  | cons e es ih =>
      intro d acc h
      cases e with
      | startTag n =>
          by_cases hn : n = t
          · subst hn
            simp only [innerBalanced, beq_self_eq_true, if_pos] at h
            simpa [readRecordLoop, List.append_assoc] using
              ih (d + 1) (acc ++ [XmlEvent.startTag n]) h
          · have hb : (n == t) = false := beq_eq_false_iff_ne.mpr hn
            simp only [innerBalanced, hb, Bool.false_eq_true, if_neg, if_false] at h
            simpa [readRecordLoop, hb, List.append_assoc] using
              ih d (acc ++ [XmlEvent.startTag n]) h
      | endTag n =>
          by_cases hn : n = t
          · subst hn
            simp only [innerBalanced, beq_self_eq_true, if_pos, Bool.and_eq_true,
              decide_eq_true_eq] at h
            obtain ⟨hd, h⟩ := h
            have hdz : (d == 0) = false := by
              simpa [beq_eq_false_iff_ne] using hd
            simpa [readRecordLoop, hdz, List.append_assoc] using
              ih (d - 1) (acc ++ [XmlEvent.endTag n]) h
          · have hb : (n == t) = false := beq_eq_false_iff_ne.mpr hn
            simp only [innerBalanced, hb, Bool.false_eq_true, if_neg, if_false] at h
            simpa [readRecordLoop, hb, List.append_assoc] using
              ih d (acc ++ [XmlEvent.endTag n]) h
      | text s =>
          simp only [innerBalanced] at h
          simpa [readRecordLoop, List.append_assoc] using
            ih d (acc ++ [XmlEvent.text s]) h
      | eofMark =>
          simp [innerBalanced] at h
      | other =>
          simp only [innerBalanced] at h
          simpa [readRecordLoop, List.append_assoc] using
            ih d (acc ++ [XmlEvent.other]) h

lemma readRecordLoop_noBaseline (t : String) :
    ∀ (evs : List XmlEvent) (d : Nat) (acc : List XmlEvent),
      noBaselineEnd t d evs = true →
      readRecordLoop t evs d acc = .error unexpectedEofMsg := by
  intro evs
  induction evs with
  | nil => intro d acc _; simp [readRecordLoop]
  | cons e es ih =>
      intro d acc h
      cases e with
      | startTag n =>
          by_cases hn : n = t
          · subst hn
            simp only [noBaselineEnd, beq_self_eq_true, if_pos] at h
            simpa [readRecordLoop] using ih (d + 1) (acc ++ [XmlEvent.startTag n]) h
          · have hb : (n == t) = false := beq_eq_false_iff_ne.mpr hn
            simp only [noBaselineEnd, hb, Bool.false_eq_true, if_neg, if_false] at h
            simpa [readRecordLoop, hb] using ih d (acc ++ [XmlEvent.startTag n]) h
      | endTag n =>
          by_cases hn : n = t
          · subst hn
            simp only [noBaselineEnd, beq_self_eq_true, if_pos, Bool.and_eq_true,
              decide_eq_true_eq] at h
            obtain ⟨hd, h⟩ := h
            have hdz : (d == 0) = false := by
              simpa [beq_eq_false_iff_ne] using hd
            simpa [readRecordLoop, hdz] using ih (d - 1) (acc ++ [XmlEvent.endTag n]) h
          · have hb : (n == t) = false := beq_eq_false_iff_ne.mpr hn
            simp only [noBaselineEnd, hb, Bool.false_eq_true, if_neg, if_false] at h
            simpa [readRecordLoop, hb] using ih d (acc ++ [XmlEvent.endTag n]) h
      | text s =>
          simp only [noBaselineEnd] at h
          simpa [readRecordLoop] using ih d (acc ++ [XmlEvent.text s]) h
      | eofMark => simp [readRecordLoop]
      | other =>
          simp only [noBaselineEnd] at h
          simpa [readRecordLoop] using ih d (acc ++ [XmlEvent.other]) h

/-- C2: positioned after the start of the target element, extraction keeps a
same-name nesting counter (up on each nested same-name start, down on each
matching end) and returns the buffer exactly at the matching end seen at
baseline depth: for any entry body that is balanced with respect to the
entry's own tag name (so it may contain nested same-named elements), the
returned buffer is the true outer span - the start event, the entire body
with every nested occurrence inside, and the outer end event - and the
remainder of the stream is untouched. -/
theorem read_record_nested_same_name (t : String) (inner rest : List XmlEvent)
    (h : innerBalanced t 0 inner = true) :
    read_record t (inner ++ XmlEvent.endTag t :: rest) =
      .ok (XmlEvent.startTag t :: (inner ++ [XmlEvent.endTag t]), rest) := by
  unfold read_record
  rw [readRecordLoop_balanced t rest inner 0 [XmlEvent.startTag t] h]
  simp

/-- Witness for C2 at a concrete stream whose body reuses the entry's own
tag name. -/
theorem read_record_nested_same_name_witness :
    innerBalanced "VariationArchive" 0
      [XmlEvent.startTag "VariationArchive", XmlEvent.text "x",
       XmlEvent.endTag "VariationArchive"] = true ∧
    read_record "VariationArchive"
      [XmlEvent.startTag "VariationArchive", XmlEvent.text "x",
       XmlEvent.endTag "VariationArchive", XmlEvent.endTag "VariationArchive",
       XmlEvent.eofMark] =
      .ok ([XmlEvent.startTag "VariationArchive", XmlEvent.startTag "VariationArchive",
            XmlEvent.text "x", XmlEvent.endTag "VariationArchive",
            XmlEvent.endTag "VariationArchive"], [XmlEvent.eofMark]) :=
  ⟨by decide,
   read_record_nested_same_name "VariationArchive"
     [XmlEvent.startTag "VariationArchive", XmlEvent.text "x",
      XmlEvent.endTag "VariationArchive"] [XmlEvent.eofMark] (by decide)⟩

/-- C9: when the stream runs out (or its end-of-stream marker is reached)
before a matching end of the entry at baseline depth - every same-name end
event only closes a nested occurrence - record extraction returns the
unexpected-EOF error rather than a truncated buffer. -/
theorem eof_mid_entry_is_error (t : String) (evs : List XmlEvent)
    (h : noBaselineEnd t 0 evs = true) :
    read_record t evs = .error unexpectedEofMsg := by
  unfold read_record
  exact readRecordLoop_noBaseline t evs 0 [XmlEvent.startTag t] h

/-- Witness for C9 at a concrete stream that ends inside the entry. -/
theorem eof_mid_entry_is_error_witness :
    noBaselineEnd "VariationArchive" 0
      [XmlEvent.startTag "VariationArchive", XmlEvent.endTag "VariationArchive"] = true ∧
    read_record "VariationArchive"
      [XmlEvent.startTag "VariationArchive", XmlEvent.endTag "VariationArchive"] =
      .error unexpectedEofMsg :=
  ⟨by decide,
   eof_mid_entry_is_error "VariationArchive"
     [XmlEvent.startTag "VariationArchive", XmlEvent.endTag "VariationArchive"]
     (by decide)⟩

/-! ## End-to-end example -/

/-- C1: projecting the example entry (variation id 12345, allele id 67,
GRCh38 placement chr 1 pos 100 ref A alt G, one accession with MedGen id M1
and germline description "Pathogenic; Likely pathogenic" with submission
count 3) against GRCh38 emits exactly the expected tab-separated row and no
diagnostic. -/
theorem medgen_end_to_end_row :
    (output_record entryC1 "GRCh38").1.map renderRow =
      some "1\t100\t12345\tA\tG\t.\t.\tALLELEID=67;CONDITIONS=MedGen:M1:pathogenic/likely_pathogenic:3" ∧
    (output_record entryC1 "GRCh38").2 = [] := by
  constructor
  · decide
  · decide

/-! ## Lemmas about condition synthesis -/

lemma isEmpty_append_of_left (s t : String) (h : s.isEmpty = false) :
    (s ++ t).isEmpty = false := by
  cases hv : (s ++ t).isEmpty with
  | false => rfl
  | true =>
      exfalso
      have hst := (String.isEmpty_iff _).mp hv
      have hd := congrArg String.data hst
      rw [String.data_append, show ("" : String).data = [] from rfl] at hd
      have hs : s = "" := String.ext (List.append_eq_nil.mp hd).1
      rw [hs] at h
      exact absurd h (by decide)

lemma specAccessionContribution_ne_empty (rcv : RCVAccession) (s : String)
    (h : specAccessionContribution rcv = some s) : s.isEmpty = false := by
  unfold specAccessionContribution at h
  split at h
  · exact absurd h (by simp)
  · split at h
    · exact absurd h (by simp)
    · injection h with h'
      rw [← h']
      refine isEmpty_append_of_left _ _ ?_
      refine isEmpty_append_of_left _ _ ?_
      refine isEmpty_append_of_left _ _ ?_
      refine isEmpty_append_of_left _ _ ?_
      exact isEmpty_append_of_left _ _ (by decide)

lemma accessionContribution_eq_spec (rcv : RCVAccession) :
    accessionContribution rcv = specAccessionContribution rcv := by
  have hid : specMedgenIds rcv = medgenIds rcv := rfl
  unfold accessionContribution specAccessionContribution specConditionFragments
  rw [hid]
  cases hL : medgenIds rcv with
  | nil => simp
  | cons a as =>
      cases hg : rcv.rcv_classifications.germline_classification with
      | none => simp
      | some g =>
          rw [show (DB_MEDGEN ++ ":" : String) = "MedGen:" from rfl,
            if_pos (by simp), if_neg (by simp)]
          simp

lemma filter_nonempty_contributions (l : List RCVAccession) :
    ((l.filterMap specAccessionContribution).filter fun s => !s.isEmpty) =
      l.filterMap specAccessionContribution := by
  refine List.filter_eq_self.mpr ?_
  intro s hs
  rcases List.mem_filterMap.mp hs with ⟨rcv, _, hc⟩
  simp [specAccessionContribution_ne_empty rcv s hc]

/-- C3: for every classified record, condition synthesis agrees with the
specification's description - per accession with at least one MedGen
condition id, `MedGen:<ids>:<fragments>:<count>` with the fragments taken
from the germline description only, non-empty contributions joined with a
pipe in input order - and it is invariant under erasing every accession's
somatic-clinical-impact and oncogenicity classifications, which are never
consulted. -/
theorem conditions_follow_spec (record : ClassifiedRecord) :
    extract_conditions record = specExtractConditions record ∧
    extract_conditions (scrubNonGermline record) = extract_conditions record := by
  constructor
  · unfold extract_conditions specExtractConditions
    rw [filter_nonempty_contributions]
    exact congrArg _ (List.filterMap_congr fun rcv _ => accessionContribution_eq_spec rcv)
  · unfold extract_conditions scrubNonGermline
    refine congrArg _ ?_
    show List.filterMap accessionContribution
      (record.rcv_list.rcv_accession.map _) = _
    rw [List.filterMap_map]
    exact List.filterMap_congr fun rcv _ => rfl

/-! ## Lemmas about location extraction and row projection -/

lemma extract_location_eq (allele : SimpleAllele) (assembly : String)
    (sl : SequenceLocation) (p : Nat) (r a : String)
    (hml : matchingLocation allele assembly = some sl)
    (hp : sl.pos = some p) (hr : sl.reference = some r) (ha : sl.alternate = some a) :
    extract_location allele assembly =
      (if !regexChromosomeMatch sl.chr then none
       else if !regexAlleleMatch (rustToUppercase r) then none
       else if !regexAlleleMatch (rustToUppercase a) then none
       else if rustToUppercase r == rustToUppercase a then none
       else some (sl.chr, p, r, a)) := by
  unfold extract_location
  rw [hml]
  simp [hp, hr, ha]

lemma extract_location_none_of_missing (allele : SimpleAllele) (assembly : String)
    (sl : SequenceLocation) (hml : matchingLocation allele assembly = some sl)
    (hmiss : sl.pos = none ∨ sl.reference = none ∨ sl.alternate = none) :
    extract_location allele assembly = none := by
  unfold extract_location
  rw [hml]
  rcases hmiss with hm | hm | hm <;>
    cases hp : sl.pos <;> cases hr : sl.reference <;> cases ha : sl.alternate <;>
      simp_all

lemma output_record_fst_none_of_no_location (variant : VariationArchive)
    (assembly : String) (record : ClassifiedRecord) (allele : SimpleAllele)
    (hrec : variant.classified_record = some record)
    (hall : record.simple_allele = some allele)
    (hl : extract_location allele assembly = none) :
    (output_record variant assembly).1 = none := by
  simp [output_record, hrec, hall, hl]

/-- C5: a matching sequence location whose reference and alternate alleles
are equal after upper-casing (any casing combination) makes location
extraction return no coordinates, and no row is emitted from any entry built
around that allele. -/
theorem ref_eq_alt_yields_no_row (allele : SimpleAllele) (assembly : String)
    (sl : SequenceLocation) (r a : String)
    (hml : matchingLocation allele assembly = some sl)
    (hr : sl.reference = some r) (ha : sl.alternate = some a)
    (heq : rustToUppercase r = rustToUppercase a) :
    extract_location allele assembly = none ∧
    ∀ variant record, variant.classified_record = some record →
      record.simple_allele = some allele →
      (output_record variant assembly).1 = none := by
  have hloc : extract_location allele assembly = none := by
    cases hp : sl.pos with
    | none => exact extract_location_none_of_missing allele assembly sl hml (Or.inl hp)
    | some p =>
        rw [extract_location_eq allele assembly sl p r a hml hp hr ha]
        have hbeq : (rustToUppercase r == rustToUppercase a) = true := beq_iff_eq.mpr heq
        simp [hbeq]
  exact ⟨hloc, fun variant record hrec hall =>
    output_record_fst_none_of_no_location variant assembly record allele hrec hall hloc⟩

/-- Witness for C5: reference "a" and alternate "A" yield no coordinates. -/
theorem ref_eq_alt_yields_no_row_witness :
    extract_location alleleRefAlt "GRCh38" = none :=
  (ref_eq_alt_yields_no_row alleleRefAlt "GRCh38" slRefAlt "a" "A"
    (by decide) rfl rfl (by decide)).1

/-- C6: when the matching location's chromosome label is outside
{1..22, X, Y, MT}, or the upper-cased reference or alternate fails to match
one-or-more-of-ACGT, location extraction returns no coordinates and no row
is emitted from any entry built around that allele. -/
theorem invalid_chromosome_or_allele_yields_no_row (allele : SimpleAllele)
    (assembly : String) (sl : SequenceLocation)
    (hml : matchingLocation allele assembly = some sl)
    (hbad : regexChromosomeMatch sl.chr = false
        ∨ (∃ r, sl.reference = some r ∧ regexAlleleMatch (rustToUppercase r) = false)
        ∨ (∃ a, sl.alternate = some a ∧ regexAlleleMatch (rustToUppercase a) = false)) :
    extract_location allele assembly = none ∧
    ∀ variant record, variant.classified_record = some record →
      record.simple_allele = some allele →
      (output_record variant assembly).1 = none := by
  have hloc : extract_location allele assembly = none := by
    cases hp : sl.pos with
    | none => exact extract_location_none_of_missing allele assembly sl hml (Or.inl hp)
    | some p =>
        cases hr : sl.reference with
        | none => exact extract_location_none_of_missing allele assembly sl hml (Or.inr (Or.inl hr))
        | some r =>
            cases ha : sl.alternate with
            | none =>
                exact extract_location_none_of_missing allele assembly sl hml
                  (Or.inr (Or.inr ha))
            | some a =>
                rw [extract_location_eq allele assembly sl p r a hml hp hr ha]
                rcases hbad with hbc | ⟨r', hr', hbr⟩ | ⟨a', ha', hba⟩
                · simp [hbc]
                · rw [hr] at hr'
                  injection hr' with hre
                  subst hre
                  simp [hbr, ite_self]
                · rw [ha] at ha'
                  injection ha' with hae
                  subst hae
                  simp [hba, ite_self]
  exact ⟨hloc, fun variant record hrec hall =>
    output_record_fst_none_of_no_location variant assembly record allele hrec hall hloc⟩

/-- Witness for C6: chromosome label "chr1" yields no coordinates. -/
theorem invalid_chromosome_or_allele_yields_no_row_witness :
    extract_location alleleBadChrom "GRCh38" = none :=
  (invalid_chromosome_or_allele_yields_no_row alleleBadChrom "GRCh38" slBadChrom
    (by decide) (Or.inl (by decide))).1

lemma matchingLocation_eq_find (allele : SimpleAllele) (assembly : String) :
    matchingLocation allele assembly =
      (locationsOf allele).find? fun x => x.assembly == assembly := by
  unfold matchingLocation locationsOf
  cases allele.location <;> simp

lemma find?_first {α : Type} (p : α → Bool) :
    ∀ (pre : List α) (x : α) (post : List α),
      (∀ y ∈ pre, p y = false) → p x = true →
      (pre ++ x :: post).find? p = some x := by
  intro pre
  induction pre with
  | nil => intro x post _ hx; simpa using List.find?_cons_of_pos post hx
  | cons z zs ih =>
      intro x post hpre hx
      have hz : p z = false := hpre z (by simp)
      rw [List.cons_append, List.find?_cons_of_neg _ (by simp [hz])]
      exact ih x post (fun y hy => hpre y (by simp [hy])) hx

/-- C7: location extraction selects the first sequence location whose
assembly label equals the target; when no location matches, the entry yields
no coordinates and an entry built around the allele yields no row and no
diagnostic. -/
theorem assembly_mismatch_yields_no_row (allele : SimpleAllele) (assembly : String)
    (variant : VariationArchive) (record : ClassifiedRecord)
    (hrec : variant.classified_record = some record)
    (hall : record.simple_allele = some allele) :
    ((∀ sl ∈ locationsOf allele, ¬ sl.assembly = assembly) →
      extract_location allele assembly = none ∧
      output_record variant assembly = (none, [])) ∧
    (∀ pre sl post, locationsOf allele = pre ++ sl :: post →
      sl.assembly = assembly →
      (∀ x ∈ pre, ¬ x.assembly = assembly) →
      matchingLocation allele assembly = some sl) := by
  constructor
  · intro hnone
    have hml : matchingLocation allele assembly = none := by
      rw [matchingLocation_eq_find]
      exact List.find?_eq_none.mpr fun x hx => by simpa using hnone x hx
    have hloc : extract_location allele assembly = none := by
      unfold extract_location
      rw [hml]
      rfl
    exact ⟨hloc, by simp [output_record, hrec, hall, hloc]⟩
  · intro pre sl post hsplit hsl hpre
    rw [matchingLocation_eq_find, hsplit]
    exact find?_first _ pre sl post
      (fun y hy => beq_eq_false_iff_ne.mpr (hpre y hy)) (beq_iff_eq.mpr hsl)

/-- Witness for C7: the end-to-end example entry projected against GRCh37
yields no coordinates, no row, and no diagnostic. -/
theorem assembly_mismatch_yields_no_row_witness :
    extract_location alleleC1 "GRCh37" = none ∧
    output_record entryC1 "GRCh37" = (none, []) :=
  (assembly_mismatch_yields_no_row alleleC1 "GRCh37" entryC1 recordC1 rfl rfl).1
    (by decide)

/-- C4: a row is emitted only when the entry has a classified record, that
record has a SimpleAllele, location extraction succeeds for the target
assembly, and condition synthesis is non-empty; in particular an entry whose
accessions all lack MedGen-tagged condition ids emits no row even with
otherwise-valid coordinates. -/
theorem row_emission_gating (variant : VariationArchive) (assembly : String) :
    ((output_record variant assembly).1.isSome = true →
      ∃ record allele, variant.classified_record = some record ∧
        record.simple_allele = some allele ∧
        (extract_location allele assembly).isSome = true ∧
        ¬ extract_conditions record = "") ∧
    (∀ record, variant.classified_record = some record →
      (∀ rcv ∈ record.rcv_list.rcv_accession, medgenIds rcv = []) →
      (output_record variant assembly).1 = none) := by
  constructor
  · intro h
    cases hcr : variant.classified_record with
    | none => simp [output_record, hcr] at h
    | some record =>
        cases hsa : record.simple_allele with
        | none => simp [output_record, hcr, hsa] at h
        | some allele =>
            cases hl : extract_location allele assembly with
            | none => simp [output_record, hcr, hsa, hl] at h
            | some loc =>
                refine ⟨record, allele, rfl, hsa, by simp [hl], ?_⟩
                intro he
                simp [output_record, hcr, hsa, hl, he,
                  show ("" : String).isEmpty = true from rfl] at h
  · intro record hrec hids
    have hcond : extract_conditions record = "" := by
      unfold extract_conditions
      have hnil : record.rcv_list.rcv_accession.filterMap accessionContribution = [] := by
        refine List.filterMap_eq_nil_iff.mpr fun rcv hm => ?_
        unfold accessionContribution
        rw [hids rcv hm]
        simp
      rw [hnil]
      rfl
    cases hsa : record.simple_allele with
    | none => simp [output_record, hrec, hsa]
    | some allele =>
        cases hl : extract_location allele assembly with
        | none => simp [output_record, hrec, hsa, hl]
        | some loc =>
            simp [output_record, hrec, hsa, hl, hcond,
              show ("" : String).isEmpty = true from rfl]

/-- Witness for C4: valid coordinates but zero MedGen-tagged conditions emit
no row. -/
theorem row_emission_gating_witness :
    (output_record entryNoMedgen "GRCh38").1 = none :=
  (row_emission_gating entryNoMedgen "GRCh38").2 recordNoMedgen rfl (by decide)

/-- C8: for an entry with a classified record, a SimpleAllele, a complete
matching-assembly location that passes every validation check, and a
non-empty conditions string, the emitted row's REF and ALT fields are the
input reference and alternate alleles upper-cased, whatever their input
casing. -/
theorem row_alleles_uppercased (variant : VariationArchive) (assembly : String)
    (record : ClassifiedRecord) (allele : SimpleAllele) (sl : SequenceLocation)
    (p : Nat) (r a : String)
    (hrec : variant.classified_record = some record)
    (hall : record.simple_allele = some allele)
    (hml : matchingLocation allele assembly = some sl)
    (hp : sl.pos = some p) (hr : sl.reference = some r) (ha : sl.alternate = some a)
    (hc : regexChromosomeMatch sl.chr = true)
    (hvr : regexAlleleMatch (rustToUppercase r) = true)
    (hva : regexAlleleMatch (rustToUppercase a) = true)
    (hne : ¬ rustToUppercase r = rustToUppercase a)
    (hcond : ¬ extract_conditions record = "") :
    (output_record variant assembly).1.map OutputRow.reference =
      some (rustToUppercase r) ∧
    (output_record variant assembly).1.map OutputRow.alternate =
      some (rustToUppercase a) := by
  have hloc : extract_location allele assembly = some (sl.chr, p, r, a) := by
    rw [extract_location_eq allele assembly sl p r a hml hp hr ha]
    rw [if_neg (by simp [hc]), if_neg (by simp [hvr]), if_neg (by simp [hva]),
      if_neg (by simp [hne])]
  have hemp : (extract_conditions record).isEmpty = false := by
    cases hv : (extract_conditions record).isEmpty with
    | false => rfl
    | true => exact absurd ((String.isEmpty_iff _).mp hv) hcond
  constructor <;> simp [output_record, hrec, hall, hloc, hemp]

/-- Witness for C8: lower-cased input alleles "a"/"g" appear in the row as
"A"/"G". -/
theorem row_alleles_uppercased_witness :
    (output_record entryLower "GRCh38").1.map OutputRow.reference =
      some (rustToUppercase "a") ∧
    (output_record entryLower "GRCh38").1.map OutputRow.alternate =
      some (rustToUppercase "g") :=
  row_alleles_uppercased entryLower "GRCh38" recordLower alleleLower slLower 50 "a" "g"
    rfl rfl (by decide) rfl rfl rfl (by decide) (by decide) (by decide) (by decide)
    (by decide)

/-- C10: the variation id written to an emitted row is the SimpleAllele's
variation id attribute, while the missing-record, missing-allele and
empty-conditions diagnostics of `output_record` all report the enclosing
entry's variation id; when the two ids differ, the allele's id is the one in
the row. -/
theorem row_id_from_allele (variant : VariationArchive) (assembly : String) :
    (∀ record allele row, variant.classified_record = some record →
      record.simple_allele = some allele →
      (output_record variant assembly).1 = some row →
      row.variation_id = allele.variation_id) ∧
    (∀ w ∈ (output_record variant assembly).2,
      w.reportedId = variant.variation_id) := by
  constructor
  · intro record allele row hrec hall hrow
    cases hl : extract_location allele assembly with
    | none => simp [output_record, hrec, hall, hl] at hrow
    | some loc =>
        cases hemp : (extract_conditions record).isEmpty with
        | true => simp [output_record, hrec, hall, hl, hemp] at hrow
        | false =>
            simp [output_record, hrec, hall, hl, hemp] at hrow
            rw [← hrow]
  · intro w hw
    cases hcr : variant.classified_record with
    | none =>
        simp [output_record, hcr] at hw
        rw [hw]
        rfl
    | some record =>
        cases hsa : record.simple_allele with
        | none =>
            simp [output_record, hcr, hsa] at hw
            rw [hw]
            rfl
        | some allele =>
            cases hl : extract_location allele assembly with
            | none => simp [output_record, hcr, hsa, hl] at hw
            | some loc =>
                cases hemp : (extract_conditions record).isEmpty with
                | true =>
                    simp [output_record, hcr, hsa, hl, hemp] at hw
                    rw [hw]
                    rfl
                | false => simp [output_record, hcr, hsa, hl, hemp] at hw

/-- Witness for C10: the entry whose own variation id is 99 but whose allele
carries 12345 puts 12345 in the row; a record-less entry with variation id
99 warns with 99. -/
theorem row_id_from_allele_witness :
    rowDiffer.variation_id = 12345 ∧
    (ProjectionWarning.classifiedRecordNotFound 99).reportedId = 99 :=
  ⟨(row_id_from_allele entryDiffer "GRCh38").1 recordC1 alleleC1 rowDiffer rfl rfl
      (by decide),
   (row_id_from_allele entryNoRecord "GRCh38").2
      (ProjectionWarning.classifiedRecordNotFound 99) (by decide)⟩

end ClinVar
